import Mathlib

set_option maxRecDepth 1000000

deriving instance DecidableEq for Except

/-!
Shallow embedding of the gadgetbridge_plotter core (filter_provider.py and
dataset_container.py).  Timestamps are modelled as integers (seconds since an
arbitrary epoch; one minute = 60), values as integers (the data arriving from
the device database is integral, and `numpy.array` of python ints yields an
integer array, so the in-place float division in the heartrate filter
truncates toward zero, matching `Int.tdiv`).  Where python produces floats
(mean, median, histogram densities) the model uses exact rationals, built
with `mkRat` so that concrete runs reduce in the kernel.
-/

/-- Exact rational quotient of two integers (`mkRat` with the sign moved into
the numerator).  Used wherever python computes a float quotient of integers. -/
def qdiv (a b : Int) : ℚ :=
  if 0 ≤ b then mkRat a b.toNat else mkRat (-a) (-b).toNat

/-- Exact rational quotient of two rationals, expressed through `qdiv` on the
numerators and denominators. -/
def qdivQ (x y : ℚ) : ℚ :=
  qdiv (x.num * (y.den : Int)) ((x.den : Int) * y.num)

/-- A single data point (`Datapoint` in dataset_container.py): a
(timestamp, value) pair. -/
structure Datapoint where
  timestamp : Int
  value : Int
deriving DecidableEq, Repr

/-- `acceptance_tester._test_heartrate`: reject `value >= 255` and
`value <= 0`. -/
def test_heartrate (dp : Datapoint) : Bool :=
  !(dp.value ≥ 255) && !(dp.value ≤ 0)

/-- `acceptance_tester._test_intensity`: reject `value >= 255`. -/
def test_intensity (dp : Datapoint) : Bool :=
  !(dp.value ≥ 255)

/-- `acceptance_tester._test_steps`: reject `value < 0`. -/
def test_steps (dp : Datapoint) : Bool :=
  !(dp.value < 0)

/-- `acceptance_tester._test_accept_all`: accept everything. -/
def test_accept_all (_dp : Datapoint) : Bool :=
  true

/-- `acceptance_tester.__init__` + `__call__`: dispatch on the dataset type
string; unknown types fall back to `_test_accept_all`. -/
def acceptance_tester (tester_type : String) (dp : Datapoint) : Bool :=
  if tester_type = "heartrate" then test_heartrate dp
  else if tester_type = "intensity" then test_intensity dp
  else if tester_type = "steps" then test_steps dp
  else test_accept_all dp

/-- The delta condition of `dataset_filter._filter_hr` at one index:
`abs(values[i]/2. - values[i-1]) < delta` and
`abs(values[i]/2. - values[i+1]) < delta`.  Stated in the exact integer form
obtained by multiplying both sides by 2: `|values[i] - 2*neighbor| < 2*delta`
(the python float arithmetic is exact here: halving an int is dyadic). -/
def hr_cond (delta : Int) (lower mid upper : Int) : Bool :=
  decide (|mid - 2 * lower| < 2 * delta) && decide (|mid - 2 * upper| < 2 * delta)

/-- One iteration of the loop in `dataset_filter._filter_hr`: if the delta
condition holds at interior index `i`, overwrite `values[i]` with its half
(`values[i] /= 2.` on an integer numpy array truncates toward zero, i.e.
`Int.tdiv _ 2`). -/
def hr_update (delta : Int) (values : List Int) (i : Nat) : List Int :=
  if hr_cond delta (values.getD (i - 1) 0) (values.getD i 0) (values.getD (i + 1) 0) then
    values.set i (Int.tdiv (values.getD i 0) 2)
  else
    values

/-- The value loop of `dataset_filter._filter_hr`:
`for i in arange(1, len(values) - 1)`, i.e. indices 1 .. len-2 in order. -/
def filter_hr_values (delta : Int) (values : List Int) : List Int :=
  (List.range' 1 (values.length - 2)).foldl (hr_update delta) values

/-- `dataset_filter._filter_hr` (timestamps pass through unchanged,
`delta_doublefilter` defaults to 3). -/
def filter_hr (delta : Int) (timestamps : List Int) (values : List Int) :
    List Int × List Int :=
  (timestamps, filter_hr_values delta values)

/-- The keys of `dataset_filter._filter_map`: the fixed filter registry. -/
def filter_registry : List String := ["heartrate"]

/-- The stored keyword parameters for one filter.  The only registered filter
(`_filter_hr`) takes a single optional parameter `delta_doublefilter`
(default 3), so one parameter set is modelled as `Option Int`. -/
abbrev FilterParams := Option Int

/-- Dispatch through `dataset_filter._filter_map`: apply the named filter with
its stored parameters. -/
def apply_filter (name : String) (params : FilterParams) (timestamps : List Int)
    (values : List Int) : List Int × List Int :=
  if name = "heartrate" then filter_hr (params.getD 3) timestamps values
  else (timestamps, values)

/-- State of `dataset_filter`: the ordered filter-name list `_filters` and the
parameter dictionary `_filter_params`. -/
structure DatasetFilter where
  filters : List String
  filter_params : List (String × FilterParams)
deriving DecidableEq, Repr

/-- `dataset_filter.__init__`: empty chain, empty parameter dict. -/
def DatasetFilter.init : DatasetFilter :=
  { filters := [], filter_params := [] }

/-- `dataset_filter.add_filter`: append the name and store its parameters iff
the name is in the registry and not already in the chain; otherwise no-op. -/
def DatasetFilter.add_filter (f : DatasetFilter) (filtername : String)
    (params : FilterParams) : DatasetFilter :=
  if filter_registry.contains filtername && !(f.filters.contains filtername) then
    { filters := f.filters ++ [filtername],
      filter_params := (filtername, params) :: f.filter_params }
  else
    f

/-- `dataset_filter.__call__`: fold the dataset through each stored filter in
order, passing each filter its stored parameters. -/
def DatasetFilter.call (f : DatasetFilter) (timestamps : List Int)
    (values : List Int) : List Int × List Int :=
  f.filters.foldl
    (fun p name =>
      apply_filter name ((f.filter_params.lookup name).getD none) p.1 p.2)
    (timestamps, values)

/-- `dataset_filter.count`: number of filters in the chain. -/
def DatasetFilter.count (f : DatasetFilter) : Nat :=
  f.filters.length

/-- State of `DatasetContainer`: the dataset type `_type`, the raw accepted
data points `_raw_datapoints`, the resolution `_time_resolution` (seconds),
the filter provider `_filters`, the dirty flag `_data_up_to_date` and the
cached `_filtered_data` (timestamps, values).  The `_index` iterator cursor
and the plotter class are irrelevant to the modelled operations. -/
structure DatasetContainer where
  dtype : String
  raw_datapoints : List Datapoint
  time_resolution_value : Int
  filters : DatasetFilter
  data_up_to_date : Bool
  filtered_data : List Int × List Int
deriving DecidableEq, Repr

/-- The recomputation of `DatasetContainer._update_filtered_data`: project the
raw points to parallel (timestamps, values) lists in insertion order and run
them through the filter chain. -/
def DatasetContainer.compute_filtered (c : DatasetContainer) : List Int × List Int :=
  c.filters.call (c.raw_datapoints.map (·.timestamp)) (c.raw_datapoints.map (·.value))

/-- `DatasetContainer._update_filtered_data`: overwrite the cache with the
recomputed filtered data. -/
def DatasetContainer.update_filtered_data (c : DatasetContainer) : DatasetContainer :=
  { c with filtered_data := c.compute_filtered }

/-- `DatasetContainer.__init__(dataset_type, time_resolution)`: empty raw
list, the given resolution stored unchecked, fresh empty filter provider,
`_data_up_to_date = True` and an initial `_update_filtered_data()` run.
Default `time_resolution` is `timedelta(minutes=1)` = 60 seconds. -/
def DatasetContainer.init (dataset_type : String) (time_resolution : Int) :
    DatasetContainer :=
  DatasetContainer.update_filtered_data
    { dtype := dataset_type
      raw_datapoints := []
      time_resolution_value := time_resolution
      filters := DatasetFilter.init
      data_up_to_date := true
      filtered_data := ([], []) }

/-- `DatasetContainer.add_filter`: delegate to the filter provider, then mark
the cache stale unconditionally. -/
def DatasetContainer.add_filter (c : DatasetContainer) (filter_type : String)
    (params : FilterParams) : DatasetContainer :=
  { c with filters := c.filters.add_filter filter_type params,
           data_up_to_date := false }

/-- `DatasetContainer.append`: build a data point; if accepted, append it to
the raw list and mark the cache stale; otherwise do nothing at all. -/
def DatasetContainer.append (c : DatasetContainer) (timestamp value : Int) :
    DatasetContainer :=
  let dp : Datapoint := ⟨timestamp, value⟩
  if acceptance_tester c.dtype dp then
    { c with raw_datapoints := c.raw_datapoints ++ [dp], data_up_to_date := false }
  else
    c

/-- An index passed to `DatasetContainer.__getitem__`: a string or a number
(python compares a value of one type with literals of both). -/
inductive ItemKey where
  | str (s : String)
  | num (n : Int)
deriving DecidableEq, Repr

/-- `item == 'timestamps' or item == 0` in `__getitem__`. -/
def ItemKey.is_timestamps : ItemKey → Bool
  | .str s => s == "timestamps"
  | .num n => n == 0

/-- `item == 'values' or item == 1` in `__getitem__`. -/
def ItemKey.is_values : ItemKey → Bool
  | .str s => s == "values"
  | .num n => n == 1

/-- The cache refresh performed at the top of `DatasetContainer.__getitem__`:
if the cache is stale, run `_update_filtered_data` once and mark it fresh;
otherwise leave the state alone.  `getitem` returns the served value together
with this post-call state. -/
def DatasetContainer.refresh (c : DatasetContainer) : DatasetContainer :=
  if !c.data_up_to_date then { c.update_filtered_data with data_up_to_date := true }
  else c

/-- The key dispatch of `__getitem__` on the refreshed state. -/
def DatasetContainer.getitem (c : DatasetContainer) (item : ItemKey) :
    Except String (List Int) × DatasetContainer :=
  if item.is_timestamps then (.ok c.refresh.filtered_data.1, c.refresh)
  else if item.is_values then (.ok c.refresh.filtered_data.2, c.refresh)
  else (.error "Invalid index", c.refresh)

/-- The array value served by `self['timestamps']` / `self['values']`: the
cache when fresh, the recomputation otherwise (the state mutation performed by
`__getitem__` is captured separately in `DatasetContainer.getitem`). -/
def DatasetContainer.read_data (c : DatasetContainer) : List Int × List Int :=
  if c.data_up_to_date then c.filtered_data else c.compute_filtered

/-- `DatasetContainer.time_resolution(value)`: getter when `value` is `None`;
otherwise raise for < 1 minute, else store and return.  The pair is the
post-call state with the returned resolution. -/
def DatasetContainer.time_resolution (c : DatasetContainer) (value : Option Int) :
    Except String (DatasetContainer × Int) :=
  match value with
  | some v =>
    if v < 60 then .error "Time resolution cannot be lower than 1 min."
    else .ok ({ c with time_resolution_value := v }, v)
  | none => .ok (c, c.time_resolution_value)

/-- `DatasetContainer.timestamp_start`: `min(self['timestamps'])` (python
raises on an empty series; the model returns 0 there and the theorems assume
a non-empty container). -/
def DatasetContainer.timestamp_start (c : DatasetContainer) : Int :=
  (c.read_data.1.min?).getD 0

/-- `DatasetContainer.timestamp_end`: `max(self['timestamps'])`. -/
def DatasetContainer.timestamp_end (c : DatasetContainer) : Int :=
  (c.read_data.1.max?).getD 0

/-- `DatasetContainer._timeslice_data`: select the filtered samples with
`timestamp_start <= t < timestamp_end` (a boolean mask over the filtered
arrays), build a fresh container of the same dataset type, copy the
resolution through the checked `time_resolution` setter (whose `ValueError`
propagates), and re-`append` every selected sample. -/
def DatasetContainer.timeslice_data (c : DatasetContainer) (ts_start ts_end : Int) :
    Except String DatasetContainer :=
  let pairs := (c.read_data.1.zip c.read_data.2).filter
    (fun p => decide (ts_start ≤ p.1) && decide (p.1 < ts_end))
  match (DatasetContainer.init c.dtype 60).time_resolution
      (some c.time_resolution_value) with
  | .error e => .error e
  | .ok (res, _) => .ok (pairs.foldl (fun r p => r.append p.1 p.2) res)

/-- The while loop of `DatasetContainer._downsample_data`, with explicit fuel:
starting from `cur`, while `cur <= tend`, slice `[cur, cur + res)`, record
`(cur, func(slice values))`, advance `cur` by `res`.  With fuel at least
`steps_needed cur tend res` and `res > 0` the fuel never runs out before the
loop condition fails (python does not terminate for `res <= 0`). -/
def downsample_loop {α : Type} (c : DatasetContainer) (func : List Int → α)
    (cur tend res : Int) : Nat → Except String (List Int × List α)
  | 0 => .ok ([], [])
  | fuel + 1 =>
    if cur ≤ tend then
      match c.timeslice_data cur (cur + res) with
      | .error e => .error e
      | .ok sliced =>
        match downsample_loop c func (cur + res) tend res fuel with
        | .error e => .error e
        | .ok p => .ok (cur :: p.1, func sliced.read_data.2 :: p.2)
    else .ok ([], [])

/-- Number of iterations of the downsample while loop: one per window start
`cur, cur + res, ...` with `cur <= tend` (exact for `res > 0`). -/
def steps_needed (cur tend res : Int) : Nat :=
  if cur ≤ tend then (tend - cur).toNat / res.toNat + 1 else 0

/-- `DatasetContainer._downsample_data(func)`: run the window loop from
`timestamp_start()` while `cur <= timestamp_end()`.  The result is the
(timestamps, values) pair handed to the plotter. -/
def DatasetContainer.downsample_data {α : Type} (c : DatasetContainer)
    (func : List Int → α) : Except String (List Int × List α) :=
  downsample_loop c func c.timestamp_start c.timestamp_end c.time_resolution_value
    (steps_needed c.timestamp_start c.timestamp_end c.time_resolution_value)

/-- `numpy.sum` on an integer array (0 on empty input, like numpy). -/
def np_sum (vs : List Int) : Int :=
  vs.sum

/-- `numpy.mean` on an integer array as an exact rational (numpy yields NaN on
empty input; the model yields 0 there, outside the claims' domain). -/
def np_mean (vs : List Int) : ℚ :=
  qdiv vs.sum vs.length

/-- `numpy.median` on an integer array as an exact rational: middle element of
the sorted data for odd length, average of the two middle elements for even
length (NaN on empty input in numpy; 0 here, outside the claims' domain). -/
def np_median (vs : List Int) : ℚ :=
  let s := vs.insertionSort (· ≤ ·)
  let n := s.length
  if n % 2 = 1 then ((s.getD (n / 2) 0 : Int) : ℚ)
  else mkRat (s.getD (n / 2 - 1) 0 + s.getD (n / 2) 0) 2

/-- `DatasetContainer.downsample_sum`. -/
def DatasetContainer.downsample_sum (c : DatasetContainer) :
    Except String (List Int × List Int) :=
  c.downsample_data np_sum

/-- `DatasetContainer.downsample_mean`. -/
def DatasetContainer.downsample_mean (c : DatasetContainer) :
    Except String (List Int × List ℚ) :=
  c.downsample_data np_mean

/-- `DatasetContainer.downsample_median`. -/
def DatasetContainer.downsample_median (c : DatasetContainer) :
    Except String (List Int × List ℚ) :=
  c.downsample_data np_median

/-- Length of `numpy.arange(lo, hi, step)` for `step > 0`:
`ceil((hi - lo) / step)`, clamped at 0. -/
def arange_len (lo hi step : Int) : Nat :=
  (Int.ediv (hi - lo + step - 1) step).toNat

/-- `numpy.arange(lo, hi, step)` for integer arguments: values `lo + i*step`
strictly below `hi` (empty for non-positive step, which the histogram never
uses: numpy raises for step 0 and the claims fix positive resolutions). -/
def bin_edges (lo hi step : Int) : List Int :=
  if 0 < step then
    (List.range (arange_len lo hi step)).map (fun i : Nat => lo + (i : Int) * step)
  else []

/-- Bin counts of `numpy.histogram(vs, edges)`: `edges.length - 1` bins, all
half-open `[e_i, e_i+1)` except the last, which is closed. -/
def hist_counts (edges : List Int) (vs : List Int) : List Nat :=
  (List.range (edges.length - 1)).map (fun i =>
    let lo := edges.getD i 0
    let hi := edges.getD (i + 1) 0
    vs.countP (fun v =>
      decide (lo ≤ v) &&
        (decide (v < hi) || (decide (i = edges.length - 2) && decide (v ≤ hi)))))

/-- `numpy.histogram(vs, edges, density=True)[0]`: each count divided by
(its bin width times the total in-range count). -/
def hist_density (edges : List Int) (vs : List Int) : List ℚ :=
  let counts := hist_counts edges vs
  let total : Int := (counts.map (Int.ofNat)).sum
  (List.range counts.length).map (fun i =>
    qdiv (counts.getD i 0) ((edges.getD (i + 1) 0 - edges.getD i 0) * total))

/-- One histogram row: the density histogram of the window's values, rescaled
by its own maximum (`hist / amax(hist)`). -/
def hist_row (edges : List Int) (vs : List Int) : List ℚ :=
  let d := hist_density edges vs
  d.map (fun x => qdivQ x (d.max?.getD 0))

/-- `DatasetContainer.downsample_histogram(hist_min, hist_max, resolution)`:
derive unset bounds from the filtered values' min/max via
`int(amin(self['values']) / 10) * 10` — the array is integral and this is
python 2, so `/` floor-divides and the outer `int()` is a no-op; the bound is
the minimum/maximum rounded down (toward minus infinity) to a multiple of 10,
i.e. `Int.fdiv`.  Then build the `arange` bin edges, run the same window loop
recording one density-and-peak-normalized row per window, and append one
extra trailing `timestamp_end()` to the timestamp axis.
Returns (timestamps, bin edges, histogram rows). -/
def DatasetContainer.downsample_histogram (c : DatasetContainer)
    (hist_min? hist_max? : Option Int) (resolution : Int) :
    Except String (List Int × List Int × List (List ℚ)) :=
  let hmin := match hist_min? with
    | some v => v
    | none => Int.fdiv ((c.read_data.2.min?).getD 0) 10 * 10
  let hmax := match hist_max? with
    | some v => v
    | none => Int.fdiv ((c.read_data.2.max?).getD 0) 10 * 10
  let bins := bin_edges hmin hmax resolution
  match downsample_loop c (fun vs => hist_row bins vs) c.timestamp_start
      c.timestamp_end c.time_resolution_value
      (steps_needed c.timestamp_start c.timestamp_end c.time_resolution_value) with
  | .error e => .error e
  | .ok p => .ok (p.1 ++ [c.timestamp_end], bins, p.2)

/-- The public mutating/reading operations of a container, for stating
reachable-state invariants. -/
inductive ContainerOp where
  | op_append (timestamp value : Int)
  | op_add_filter (name : String) (params : FilterParams)
  | op_read (item : ItemKey)
  | op_set_resolution (value : Option Int)
deriving DecidableEq, Repr

/-- Apply one operation to a container state (a raised error leaves the state
unchanged). -/
def apply_op (c : DatasetContainer) : ContainerOp → DatasetContainer
  | .op_append t v => c.append t v
  | .op_add_filter n p => c.add_filter n p
  | .op_read item => (c.getitem item).2
  | .op_set_resolution v =>
    match c.time_resolution v with
    | .ok p => p.1
    | .error _ => c

/-- A container state reachable from some construction by a sequence of
operations. -/
def Reachable (c : DatasetContainer) : Prop :=
  ∃ (dataset_type : String) (time_resolution : Int) (ops : List ContainerOp),
    c = ops.foldl apply_op (DatasetContainer.init dataset_type time_resolution)

/-- The samples selected by `_timeslice_data`'s boolean mask, then filtered by
the acceptance gate that `append` applies when they are copied into the new
container. -/
def slice_sel (c : DatasetContainer) (a b : Int) : List (Int × Int) :=
  ((c.read_data.1.zip c.read_data.2).filter
      (fun p => decide (a ≤ p.1) && decide (p.1 < b))).filter
    (fun p => acceptance_tester c.dtype ⟨p.1, p.2⟩)

/-- The values stored in (and served by) the container `_timeslice_data`
builds for the window `[a, b)`. -/
def slice_values (c : DatasetContainer) (a b : Int) : List Int :=
  (slice_sel c a b).map (·.2)

/-- The container built in the `.ok` branch of `_timeslice_data`: the empty
container of the same type, the parent's resolution (already past the checked
setter), and every masked sample re-appended. -/
def slice_result (c : DatasetContainer) (a b : Int) : DatasetContainer :=
  ((c.read_data.1.zip c.read_data.2).filter
      (fun p => decide (a ≤ p.1) && decide (p.1 < b))).foldl
    (fun r p => r.append p.1 p.2)
    { DatasetContainer.init c.dtype 60 with
        time_resolution_value := c.time_resolution_value }

/-- The spec's end-to-end scenario, before setting the resolution: values
1..11 appended at one-minute steps from 12:00:00 (= 43200 s). -/
def c4_base : DatasetContainer :=
  (List.range 11).foldl (fun c i => c.append (43200 + 60 * i) (i + 1))
    (DatasetContainer.init "activity" 60)

/-- The spec's end-to-end scenario: resolution set to 5 minutes through the
checked setter. -/
def c4_scenario : DatasetContainer :=
  apply_op c4_base (.op_set_resolution (some 300))

/-- A heartrate container holding three accepted samples of value 1 at
minutes 0, 1, 2. -/
def c5_base : DatasetContainer :=
  (((DatasetContainer.init "heartrate" 60).append 0 1).append 60 1).append 120 1

/-- The same container with the heartrate correction filter added: its
filtered values are [1, 0, 1], and the middle 0 no longer passes the
heartrate acceptance test when re-appended by a time slice. -/
def c5_bad : DatasetContainer :=
  c5_base.add_filter "heartrate" none

/-- An intensity container holding values -15 and 5 (the intensity tester
rejects only values >= 255, so negative values are accepted and stored): its
filtered minimum is negative, where floor division by 10 and truncating
division by 10 disagree. -/
def c6_neg : DatasetContainer :=
  ((DatasetContainer.init "intensity" 60).append 0 (-15)).append 60 5

example : acceptance_tester "heartrate" ⟨0, 254⟩ = true := by decide
example : acceptance_tester "heartrate" ⟨0, 255⟩ = false := by decide
example : filter_hr_values 3 [50, 52, 51, 101, 53, 52, 50, 106, 51, 52] =
    [50, 52, 51, 50, 53, 52, 50, 106, 51, 52] := by decide
example : filter_hr_values 3 [1, 1, 1] = [1, 0, 1] := by decide

/-- C1: for every dataset type `t` and sample, the acceptance predicate is a
total boolean function of the value alone; heartrate rejects iff
`value >= 255` or `value <= 0`, intensity rejects iff `value >= 255`, steps
rejects iff `value < 0`, and every other type never rejects. -/
theorem claim_C1_acceptance (t : String) (ts v : Int) :
    (acceptance_tester t ⟨ts, v⟩ = acceptance_tester t ⟨0, v⟩)
    ∧ (acceptance_tester "heartrate" ⟨ts, v⟩ = false ↔ 255 ≤ v ∨ v ≤ 0)
    ∧ (acceptance_tester "intensity" ⟨ts, v⟩ = false ↔ 255 ≤ v)
    ∧ (acceptance_tester "steps" ⟨ts, v⟩ = false ↔ v < 0)
    ∧ (t ≠ "heartrate" → t ≠ "intensity" → t ≠ "steps" →
        acceptance_tester t ⟨ts, v⟩ = true) := by
  refine ⟨?_, ?_, ?_, ?_, ?_⟩
  · unfold acceptance_tester
    split_ifs <;> rfl
  · simp only [acceptance_tester, if_pos rfl, test_heartrate]
    simp [Bool.and_eq_false_iff, not_lt, ← ge_iff_le, ← le_iff_lt_or_eq]
    omega
  · have h1 : ("intensity" : String) ≠ "heartrate" := by decide
    simp only [acceptance_tester, if_neg h1, if_pos rfl, test_intensity]
    simp
  · have h1 : ("steps" : String) ≠ "heartrate" := by decide
    have h2 : ("steps" : String) ≠ "intensity" := by decide
    simp only [acceptance_tester, if_neg h1, if_neg h2, if_pos rfl, test_steps]
    simp
  · intro h1 h2 h3
    simp only [acceptance_tester, if_neg h1, if_neg h2, if_neg h3, test_accept_all]

/-- C1 witness: a concrete unrecognized type is accepted at a boundary
value. -/
theorem claim_C1_acceptance_witness :
    acceptance_tester "activity" ⟨5, 256⟩ = true :=
  (claim_C1_acceptance "activity" 5 256).2.2.2.2 (by decide) (by decide) (by decide)

/-- C7: `time_resolution()` without a value is a pure getter; setting a value
below one minute raises the resolution-too-small `ValueError` and leaves the
state unchanged; setting a value of at least one minute stores and returns
it. -/
theorem claim_C7_time_resolution (c : DatasetContainer) (v : Int) :
    (c.time_resolution none = .ok (c, c.time_resolution_value))
    ∧ (v < 60 →
        c.time_resolution (some v) =
          .error "Time resolution cannot be lower than 1 min."
        ∧ apply_op c (.op_set_resolution (some v)) = c)
    ∧ (60 ≤ v →
        c.time_resolution (some v) = .ok ({ c with time_resolution_value := v }, v)) := by
  refine ⟨rfl, fun h => ?_, fun h => ?_⟩
  · have he : c.time_resolution (some v) =
        .error "Time resolution cannot be lower than 1 min." := by
      simp [DatasetContainer.time_resolution, h]
    exact ⟨he, by simp [apply_op, he]⟩
  · simp [DatasetContainer.time_resolution, not_lt.mpr h]

/-- C7 witness: on a concrete container, setting 59 s fails and leaves the
state unchanged, and setting 3600 s succeeds. -/
theorem claim_C7_time_resolution_witness :
    ((59 : Int) < 60
      ∧ (DatasetContainer.init "steps" 60).time_resolution (some 59) =
          .error "Time resolution cannot be lower than 1 min."
      ∧ apply_op (DatasetContainer.init "steps" 60) (.op_set_resolution (some 59)) =
          DatasetContainer.init "steps" 60)
    ∧ ((60 : Int) ≤ 3600
      ∧ (DatasetContainer.init "steps" 60).time_resolution (some 3600) =
          .ok ({ DatasetContainer.init "steps" 60 with time_resolution_value := 3600 },
               3600)) :=
  ⟨⟨by decide,
    (claim_C7_time_resolution (DatasetContainer.init "steps" 60) 59).2.1 (by decide)⟩,
   ⟨by decide,
    (claim_C7_time_resolution (DatasetContainer.init "steps" 60) 3600).2.2 (by decide)⟩⟩

/-- Helper: `add_filter` on a registered, not-yet-present name extends the
chain by that name and stores its parameters. -/
theorem add_filter_extend (f : DatasetFilter) (name : String) (p : FilterParams)
    (h1 : filter_registry.contains name = true)
    (h2 : f.filters.contains name = false) :
    f.add_filter name p =
      { filters := f.filters ++ [name],
        filter_params := (name, p) :: f.filter_params } := by
  unfold DatasetFilter.add_filter
  rw [h1, h2]
  rfl

/-- Helper: `add_filter` on an unregistered or already-present name is the
identity. -/
theorem add_filter_noop (f : DatasetFilter) (name : String) (p : FilterParams)
    (h : filter_registry.contains name = false ∨ f.filters.contains name = true) :
    f.add_filter name p = f := by
  unfold DatasetFilter.add_filter
  rcases h with h | h
  · rw [h]
    rfl
  · rw [h]
    simp only [Bool.not_true, Bool.and_false]
    rfl

/-- C9: `add_filter` extends the chain iff the name is registered and not yet
present; otherwise it is a silent no-op; re-adding is idempotent and leaves
`count()` unchanged, and an unregistered name leaves `count()` unchanged. -/
theorem claim_C9_add_filter (f : DatasetFilter) (name : String) (p p' : FilterParams) :
    (filter_registry.contains name = true → f.filters.contains name = false →
      (f.add_filter name p).filters = f.filters ++ [name])
    ∧ (filter_registry.contains name = false ∨ f.filters.contains name = true →
      f.add_filter name p = f)
    ∧ ((f.add_filter name p).add_filter name p' = f.add_filter name p)
    ∧ ((f.add_filter name p).add_filter name p' |>.count) = (f.add_filter name p).count
    ∧ (filter_registry.contains name = false → (f.add_filter name p).count = f.count) := by
  have hidem : (f.add_filter name p).add_filter name p' = f.add_filter name p := by
    by_cases h1 : filter_registry.contains name = true
    · by_cases h2 : f.filters.contains name = false
      · rw [add_filter_extend f name p h1 h2]
        apply add_filter_noop
        right
        simp
      · have h2' : f.filters.contains name = true := by
          revert h2
          cases f.filters.contains name <;> simp
        rw [add_filter_noop f name p (Or.inr h2')]
        exact add_filter_noop f name p' (Or.inr h2')
    · have h1' : filter_registry.contains name = false := by
        revert h1
        cases filter_registry.contains name <;> simp
      rw [add_filter_noop f name p (Or.inl h1')]
      exact add_filter_noop f name p' (Or.inl h1')
  refine ⟨fun h1 h2 => by rw [add_filter_extend f name p h1 h2],
    add_filter_noop f name p, hidem, by rw [hidem], fun h => by
      rw [add_filter_noop f name p (Or.inl h)]⟩

/-- C9 witness: adding "heartrate" twice keeps one filter; an unknown name is
ignored without error. -/
theorem claim_C9_add_filter_witness :
    ((DatasetFilter.init.add_filter "heartrate" none).add_filter "heartrate" none =
      DatasetFilter.init.add_filter "heartrate" none)
    ∧ (DatasetFilter.init.add_filter "unknown" none).count = DatasetFilter.init.count
    ∧ (DatasetFilter.init.add_filter "heartrate" none).filters = [] ++ ["heartrate"] :=
  ⟨(claim_C9_add_filter DatasetFilter.init "heartrate" none none).2.2.1,
   (claim_C9_add_filter DatasetFilter.init "unknown" none none).2.2.2.2 (by decide),
   (claim_C9_add_filter DatasetFilter.init "heartrate" none none).1 (by decide) (by decide)⟩

/-- Helper: refreshing a fresh cache is a no-op. -/
theorem refresh_fresh (c : DatasetContainer) (h : c.data_up_to_date = true) :
    c.refresh = c := by
  unfold DatasetContainer.refresh
  rw [h]
  rfl

/-- Helper: refreshing a stale cache recomputes the filtered data once and
marks the cache fresh. -/
theorem refresh_stale (c : DatasetContainer) (h : c.data_up_to_date = false) :
    c.refresh = { c.update_filtered_data with data_up_to_date := true } := by
  unfold DatasetContainer.refresh
  rw [h]
  rfl

/-- C10: an `append` whose sample is rejected by the acceptance predicate
leaves the whole container state unchanged: the raw list is not extended, the
dirty flag keeps its value, and every subsequent read returns exactly what it
would have returned before, with the same post-read state (in particular, a
fresh cache stays fresh and is served without recomputation). -/
theorem claim_C10_rejected_append (c : DatasetContainer) (t v : Int)
    (h : acceptance_tester c.dtype ⟨t, v⟩ = false) :
    c.append t v = c
    ∧ (c.append t v).raw_datapoints = c.raw_datapoints
    ∧ (c.append t v).data_up_to_date = c.data_up_to_date
    ∧ (∀ item, (c.append t v).getitem item = c.getitem item)
    ∧ (c.data_up_to_date = true → ∀ item, ((c.append t v).getitem item).2 = c) := by
  have heq : c.append t v = c := by
    simp [DatasetContainer.append, h]
  refine ⟨heq, by rw [heq], by rw [heq], fun item => by rw [heq], fun hf item => ?_⟩
  rw [heq]
  unfold DatasetContainer.getitem
  split_ifs <;> exact refresh_fresh c hf

/-- C10 witness: a heartrate container rejects value 0 and is left fully
unchanged, and a fresh read afterwards does not change the state. -/
theorem claim_C10_rejected_append_witness :
    acceptance_tester (DatasetContainer.init "heartrate" 60).dtype ⟨5, 0⟩ = false
    ∧ (DatasetContainer.init "heartrate" 60).append 5 0 =
        DatasetContainer.init "heartrate" 60
    ∧ (((DatasetContainer.init "heartrate" 60).append 5 0).getitem
          (.str "values")).2 = DatasetContainer.init "heartrate" 60 :=
  ⟨by decide,
   (claim_C10_rejected_append (DatasetContainer.init "heartrate" 60) 5 0 (by decide)).1,
   (claim_C10_rejected_append (DatasetContainer.init "heartrate" 60) 5 0
      (by decide)).2.2.2.2 (by decide) (.str "values")⟩

/-- Helper: one heartrate-filter step never changes the list length. -/
theorem hr_update_length (delta : Int) (vs : List Int) (i : Nat) :
    (hr_update delta vs i).length = vs.length := by
  unfold hr_update
  split
  · exact List.length_set vs i _
  · rfl

/-- Helper: one heartrate-filter step leaves every position other than its
own index unchanged. -/
theorem hr_update_getElem?_ne (delta : Int) (vs : List Int) (i j : Nat)
    (h : j ≠ i) : (hr_update delta vs i)[j]? = vs[j]? := by
  unfold hr_update
  split
  · exact List.getElem?_set_ne (Ne.symm h)
  · rfl

/-- Helper: the heartrate-filter loop never changes the list length. -/
theorem foldl_hr_update_length (delta : Int) (l : List Nat) :
    ∀ vs : List Int, (l.foldl (hr_update delta) vs).length = vs.length := by
  induction l with
  | nil => intro vs; rfl
  | cons a l ih =>
    intro vs
    rw [List.foldl_cons, ih (hr_update delta vs a), hr_update_length]

/-- Helper: the heartrate-filter loop leaves every position outside the
iterated index set unchanged. -/
theorem foldl_hr_update_getElem? (delta : Int) (l : List Nat) (j : Nat)
    (hj : ∀ i ∈ l, j ≠ i) :
    ∀ vs : List Int, (l.foldl (hr_update delta) vs)[j]? = vs[j]? := by
  induction l with
  | nil => intro vs; rfl
  | cons a l ih =>
    intro vs
    rw [List.foldl_cons, ih (fun i hi => hj i (List.mem_cons_of_mem a hi)),
      hr_update_getElem?_ne delta vs a j (hj a (List.mem_cons_self a l))]

/-- Helper: the exact integer form of the heartrate delta test agrees with the
rational form `|v/2 - neighbor| < delta`. -/
theorem hr_half_abs_iff (a b d : Int) :
    |a - 2 * b| < 2 * d ↔ |(a : ℚ) / 2 - (b : ℚ)| < (d : ℚ) := by
  rw [show ((a : ℚ) / 2 - (b : ℚ)) = ((a - 2 * b : Int) : ℚ) / 2 by push_cast; ring,
    abs_div, abs_of_pos (show (0 : ℚ) < 2 by norm_num),
    div_lt_iff₀ (show (0 : ℚ) < 2 by norm_num),
    show ((d : ℚ) * 2) = ((2 * d : Int) : ℚ) by push_cast; ring, ← Int.cast_abs]
  constructor
  · intro h
    exact_mod_cast h
  · intro h
    exact_mod_cast h

/-- Helper: `hr_cond` is exactly the spec's pair of rational delta tests. -/
theorem hr_cond_iff (delta lower mid upper : Int) :
    hr_cond delta lower mid upper = true ↔
      (|(mid : ℚ) / 2 - (lower : ℚ)| < (delta : ℚ)
        ∧ |(mid : ℚ) / 2 - (upper : ℚ)| < (delta : ℚ)) := by
  unfold hr_cond
  rw [Bool.and_eq_true, decide_eq_true_eq, decide_eq_true_eq,
    hr_half_abs_iff mid lower delta, hr_half_abs_iff mid upper delta]

/-- C3: the heartrate double-reading filter with default delta 3 preserves
length, never modifies the first or the last element (and does nothing at all
to lists of at most two elements); each loop step replaces `values[i]` by its
half exactly when both rational delta tests `|values[i]/2 - neighbor| < 3`
hold; and the spec's concrete scenario is reproduced (101 at index 3 becomes
50, 106 at index 7 stays). -/
theorem claim_C3_heartrate_filter :
    (∀ vs : List Int, (filter_hr_values 3 vs).length = vs.length)
    ∧ (∀ vs : List Int,
        (filter_hr_values 3 vs)[0]? = vs[0]?
        ∧ (filter_hr_values 3 vs)[vs.length - 1]? = vs[vs.length - 1]?)
    ∧ (∀ vs : List Int, vs.length ≤ 2 → filter_hr_values 3 vs = vs)
    ∧ (∀ (vs : List Int) (i : Nat),
        hr_update 3 vs i =
          if |(vs.getD i 0 : ℚ) / 2 - (vs.getD (i - 1) 0 : ℚ)| < 3
              ∧ |(vs.getD i 0 : ℚ) / 2 - (vs.getD (i + 1) 0 : ℚ)| < 3
          then vs.set i (Int.tdiv (vs.getD i 0) 2)
          else vs)
    ∧ filter_hr 3 [0, 60, 120, 180, 240, 300, 360, 420, 480, 540]
        [50, 52, 51, 101, 53, 52, 50, 106, 51, 52] =
      ([0, 60, 120, 180, 240, 300, 360, 420, 480, 540],
       [50, 52, 51, 50, 53, 52, 50, 106, 51, 52]) := by
  refine ⟨fun vs => foldl_hr_update_length 3 _ vs, fun vs => ⟨?_, ?_⟩,
    fun vs h => ?_, fun vs i => ?_, by decide⟩
  · refine foldl_hr_update_getElem? 3 _ 0 (fun i hi => ?_) vs
    rw [List.mem_range'] at hi
    omega
  · refine foldl_hr_update_getElem? 3 _ (vs.length - 1) (fun i hi => ?_) vs
    rw [List.mem_range'] at hi
    omega
  · unfold filter_hr_values
    have hz : vs.length - 2 = 0 := by omega
    rw [hz]
    rfl
  · unfold hr_update
    refine if_congr ?_ rfl rfl
    have h3 : ((3 : Int) : ℚ) = (3 : ℚ) := by norm_num
    rw [hr_cond_iff 3 (vs.getD (i - 1) 0) (vs.getD i 0) (vs.getD (i + 1) 0), h3]

/-- C3 witness: a two-element list is returned unchanged (the loop touches
only interior indices, of which there are none). -/
theorem claim_C3_heartrate_filter_witness :
    ([5, 9] : List Int).length ≤ 2 ∧ filter_hr_values 3 [5, 9] = [5, 9] :=
  ⟨by decide, claim_C3_heartrate_filter.2.2.1 [5, 9] (by decide)⟩


/-- Cache coherence: whenever the dirty flag says fresh, the cached arrays are
exactly the filter chain applied to the raw samples. -/
def CacheInv (c : DatasetContainer) : Prop :=
  c.data_up_to_date = true → c.filtered_data = c.compute_filtered

/-- Helper: a container fresh out of `__init__` satisfies the cache
invariant. -/
theorem cache_inv_init (t : String) (r : Int) : CacheInv (DatasetContainer.init t r) :=
  fun _ => rfl

/-- Helper: an accepted append produces the extended raw list and a stale
cache, all other fields unchanged. -/
theorem append_accepted (c : DatasetContainer) (t v : Int)
    (h : acceptance_tester c.dtype ⟨t, v⟩ = true) :
    c.append t v =
      { c with raw_datapoints := c.raw_datapoints ++ [⟨t, v⟩],
               data_up_to_date := false } := by
  simp [DatasetContainer.append, h]

/-- Helper: a rejected append is the identity. -/
theorem append_rejected (c : DatasetContainer) (t v : Int)
    (h : acceptance_tester c.dtype ⟨t, v⟩ = false) :
    c.append t v = c := by
  simp [DatasetContainer.append, h]

/-- Helper: the state effect of a `time_resolution` call (errors leave the
state unchanged). -/
theorem apply_op_set_res (c : DatasetContainer) (v : Option Int) :
    apply_op c (.op_set_resolution v) =
      match v with
      | none => c
      | some v => if 60 ≤ v then { c with time_resolution_value := v } else c := by
  cases v with
  | none => rfl
  | some v =>
    by_cases hv : v < 60
    · simp [apply_op, DatasetContainer.time_resolution, hv, show ¬(60 ≤ v) by omega]
    · simp [apply_op, DatasetContainer.time_resolution, hv, show 60 ≤ v by omega]

/-- Helper: every container operation preserves the cache invariant. -/
theorem cache_inv_apply_op (c : DatasetContainer) (op : ContainerOp)
    (h : CacheInv c) : CacheInv (apply_op c op) := by
  cases op with
  | op_append t v =>
    show CacheInv (c.append t v)
    by_cases hacc : acceptance_tester c.dtype ⟨t, v⟩ = true
    · rw [append_accepted c t v hacc]
      intro hfresh
      simp at hfresh
    · rw [append_rejected c t v (by revert hacc; cases hq : acceptance_tester c.dtype ⟨t, v⟩ <;> simp)]
      exact h
  | op_add_filter n p =>
    intro hfresh
    exact Bool.noConfusion (show (false : Bool) = true from hfresh)
  | op_read item =>
    show CacheInv (c.getitem item).2
    have hsnd : (c.getitem item).2 = c.refresh := by
      unfold DatasetContainer.getitem
      split_ifs <;> rfl
    rw [hsnd]
    cases hd : c.data_up_to_date with
    | true =>
      rw [refresh_fresh c hd]
      exact h
    | false =>
      rw [refresh_stale c hd]
      intro _
      rfl
  | op_set_resolution v =>
    rw [apply_op_set_res]
    cases v with
    | none => exact h
    | some v =>
      dsimp only
      split_ifs
      · exact h
      · exact h

/-- Helper: every reachable container state satisfies the cache invariant. -/
theorem reachable_cache_inv (c : DatasetContainer) (h : Reachable c) : CacheInv c := by
  obtain ⟨t, r, ops, rfl⟩ := h
  have main : ∀ (ops : List ContainerOp) (c0 : DatasetContainer), CacheInv c0 →
      CacheInv (ops.foldl apply_op c0) := by
    intro ops
    induction ops with
    | nil => exact fun c0 h0 => h0
    | cons op ops ih =>
      intro c0 h0
      exact ih (apply_op c0 op) (cache_inv_apply_op c0 op h0)
  exact main ops _ (cache_inv_init t r)

/-- Helper: an empty filter chain is the identity transform. -/
theorem call_nil (f : DatasetFilter) (h : f.filters = []) (ts vs : List Int) :
    f.call ts vs = (ts, vs) := by
  unfold DatasetFilter.call
  rw [h]
  rfl

/-- Helper: both components of a `getitem` call, split by key kind and cache
state.  A valid key serves the (possibly refreshed) cache; the post-call
state is always the refreshed container. -/
theorem getitem_eq (c : DatasetContainer) (item : ItemKey) :
    (c.getitem item).2 = c.refresh
    ∧ (item.is_timestamps = true → (c.getitem item).1 = .ok c.refresh.filtered_data.1)
    ∧ (item.is_values = true → (c.getitem item).1 = .ok c.refresh.filtered_data.2) := by
  refine ⟨?_, fun ht => ?_, fun hv => ?_⟩
  · unfold DatasetContainer.getitem
    split_ifs <;> rfl
  · unfold DatasetContainer.getitem
    rw [if_pos ht]
  · unfold DatasetContainer.getitem
    cases hts : item.is_timestamps
    · rw [if_neg (show ¬(false = true) from Bool.false_ne_true), if_pos hv]
    · cases item with
      | str s =>
        exfalso
        have h1 : s = "timestamps" := by simpa [ItemKey.is_timestamps] using hts
        have h2 : s = "values" := by simpa [ItemKey.is_values] using hv
        rw [h1] at h2
        exact absurd h2 (by decide)
      | num n =>
        exfalso
        have h1 : n = 0 := by simpa [ItemKey.is_timestamps] using hts
        have h2 : n = 1 := by simpa [ItemKey.is_values] using hv
        rw [h1] at h2
        exact absurd h2 (by decide)

/-- C2: the cache is a two-state machine.  An accepted `append` and any
`add_filter` mark the cache stale; a read of timestamps/values on a stale
cache recomputes it exactly once as the filter chain applied to the projected
raw samples and marks it fresh; a read on a fresh cache serves the cached
arrays with no state change; in every reachable fresh state the cache equals
the filter chain applied to the raw data; and with an empty filter chain a
read returns exactly the appended samples in append order. -/
theorem claim_C2_cache_state_machine :
    (∀ (c : DatasetContainer) (t v : Int), acceptance_tester c.dtype ⟨t, v⟩ = true →
      (c.append t v).data_up_to_date = false)
    ∧ (∀ (c : DatasetContainer) (n : String) (p : FilterParams),
      (c.add_filter n p).data_up_to_date = false)
    ∧ (∀ (c : DatasetContainer) (item : ItemKey), c.data_up_to_date = false →
      (c.getitem item).2 = { c.update_filtered_data with data_up_to_date := true }
      ∧ (c.getitem item).2.filtered_data = c.compute_filtered
      ∧ (item.is_timestamps = true → (c.getitem item).1 = .ok c.compute_filtered.1)
      ∧ (item.is_values = true → (c.getitem item).1 = .ok c.compute_filtered.2))
    ∧ (∀ (c : DatasetContainer) (item : ItemKey), c.data_up_to_date = true →
      (c.getitem item).2 = c
      ∧ (item.is_timestamps = true → (c.getitem item).1 = .ok c.filtered_data.1)
      ∧ (item.is_values = true → (c.getitem item).1 = .ok c.filtered_data.2))
    ∧ (∀ c : DatasetContainer, Reachable c → c.data_up_to_date = true →
      c.filtered_data = c.compute_filtered)
    ∧ (∀ c : DatasetContainer, Reachable c → c.filters.filters = [] →
      (c.getitem (.str "timestamps")).1 = .ok (c.raw_datapoints.map (·.timestamp))
      ∧ (c.getitem (.str "values")).1 = .ok (c.raw_datapoints.map (·.value))) := by
  have hread : ∀ c : DatasetContainer, c.refresh.filtered_data =
      (if c.data_up_to_date then c.filtered_data else c.compute_filtered) := by
    intro c
    cases hd : c.data_up_to_date
    · rw [refresh_stale c hd]
      rfl
    · rw [refresh_fresh c hd]
      rfl
  refine ⟨?_, ?_, ?_, ?_, ?_, ?_⟩
  · intro c t v h
    rw [append_accepted c t v h]
  · intro c n p
    rfl
  · intro c item h
    obtain ⟨h2, ht, hv⟩ := getitem_eq c item
    rw [refresh_stale c h] at h2 ht hv
    exact ⟨h2, by rw [h2]; rfl, ht, hv⟩
  · intro c item h
    obtain ⟨h2, ht, hv⟩ := getitem_eq c item
    rw [refresh_fresh c h] at h2 ht hv
    exact ⟨h2, ht, hv⟩
  · intro c hr
    exact reachable_cache_inv c hr
  · intro c hr hnil
    have hcomp : c.compute_filtered =
        (c.raw_datapoints.map (·.timestamp), c.raw_datapoints.map (·.value)) := by
      unfold DatasetContainer.compute_filtered
      rw [call_nil c.filters hnil]
    have hrd : c.refresh.filtered_data =
        (c.raw_datapoints.map (·.timestamp), c.raw_datapoints.map (·.value)) := by
      rw [hread c]
      cases hd : c.data_up_to_date
      · rw [if_neg (show ¬(false = true) from Bool.false_ne_true), hcomp]
      · rw [if_pos (rfl : (true : Bool) = true), reachable_cache_inv c hr hd, hcomp]
    constructor
    · rw [(getitem_eq c (.str "timestamps")).2.1 (by decide), hrd]
    · rw [(getitem_eq c (.str "values")).2.2 (by decide), hrd]

/-- C2 witness: a concrete stale container (one accepted append) is
recomputed on read: the read returns the appended data, the post-read state
is fresh, and a fresh read serves the cache unchanged. -/
theorem claim_C2_cache_state_machine_witness :
    (((DatasetContainer.init "activity" 60).append 7 5).data_up_to_date = false
      ∧ (((DatasetContainer.init "activity" 60).append 7 5).getitem
            (.str "values")).1 =
          .ok ((DatasetContainer.init "activity" 60).append 7 5).compute_filtered.2)
    ∧ ((DatasetContainer.init "activity" 60).getitem (.num 0)).2 =
        DatasetContainer.init "activity" 60
    ∧ (((DatasetContainer.init "activity" 60).append 7 5).getitem
          (.str "values")).1 = .ok [5] :=
  ⟨⟨by decide,
    (claim_C2_cache_state_machine.2.2.1 ((DatasetContainer.init "activity" 60).append 7 5)
        (.str "values") (by decide)).2.2.2 (by decide)⟩,
   (claim_C2_cache_state_machine.2.2.2.1 (DatasetContainer.init "activity" 60)
       (.num 0) (by decide)).1,
   ((claim_C2_cache_state_machine.2.2.1 ((DatasetContainer.init "activity" 60).append 7 5)
        (.str "values") (by decide)).2.2.2 (by decide)).trans (by decide)⟩

/-- C8 counterexample: the constructor stores any supplied resolution
unchecked, so a container constructed with 30 seconds is a reachable state
whose stored resolution is below the 1-minute floor. -/
theorem claim_C8_counterexample :
    Reachable (DatasetContainer.init "steps" 30)
    ∧ (DatasetContainer.init "steps" 30).time_resolution_value = 30
    ∧ ¬(60 ≤ (DatasetContainer.init "steps" 30).time_resolution_value) :=
  ⟨⟨"steps", 30, [], rfl⟩, rfl, by decide⟩

/-- C8 (amended): for every container constructed with a resolution of at
least one minute, every state reachable by appends, filter additions, reads
and resolution updates keeps a stored resolution of at least one minute (the
setter enforces the floor; only the constructor does not). -/
theorem claim_C8_resolution_floor (dataset_type : String) (r0 : Int)
    (ops : List ContainerOp) (h : 60 ≤ r0) :
    60 ≤ (ops.foldl apply_op (DatasetContainer.init dataset_type r0)).time_resolution_value := by
  have step : ∀ (c : DatasetContainer) (op : ContainerOp), 60 ≤ c.time_resolution_value →
      60 ≤ (apply_op c op).time_resolution_value := by
    intro c op hc
    cases op with
    | op_append t v =>
      show 60 ≤ (c.append t v).time_resolution_value
      by_cases hacc : acceptance_tester c.dtype ⟨t, v⟩ = true
      · rw [append_accepted c t v hacc]
        exact hc
      · rw [append_rejected c t v
          (by revert hacc; cases acceptance_tester c.dtype ⟨t, v⟩ <;> simp)]
        exact hc
    | op_add_filter n p => exact hc
    | op_read item =>
      show 60 ≤ (c.getitem item).2.time_resolution_value
      rw [(getitem_eq c item).1]
      cases hd : c.data_up_to_date
      · rw [refresh_stale c hd]
        exact hc
      · rw [refresh_fresh c hd]
        exact hc
    | op_set_resolution v =>
      rw [apply_op_set_res]
      cases v with
      | none => exact hc
      | some v =>
        dsimp only
        split_ifs with hv
        · exact hv
        · exact hc
  have main : ∀ (ops : List ContainerOp) (c : DatasetContainer),
      60 ≤ c.time_resolution_value →
      60 ≤ (ops.foldl apply_op c).time_resolution_value := by
    intro ops
    induction ops with
    | nil => exact fun c hc => hc
    | cons op ops ih => exact fun c hc => ih (apply_op c op) (step c op hc)
  exact main ops _ h

/-- C8 witness: from a 60-second construction, a rejected 30-second set and
an append leave the stored resolution at the floor. -/
theorem claim_C8_resolution_floor_witness :
    (60 : Int) ≤ 60
    ∧ 60 ≤ (([ContainerOp.op_set_resolution (some 30),
        ContainerOp.op_append 1 1].foldl apply_op
          (DatasetContainer.init "steps" 60)).time_resolution_value) :=
  ⟨by decide,
   claim_C8_resolution_floor "steps" 60
     [ContainerOp.op_set_resolution (some 30), ContainerOp.op_append 1 1] (by decide)⟩

/-- Helper: the effect of one `append` on each field, for either outcome of
the acceptance test. -/
theorem append_fields (c : DatasetContainer) (t v : Int) :
    (c.append t v).dtype = c.dtype
    ∧ (c.append t v).filters = c.filters
    ∧ (c.append t v).time_resolution_value = c.time_resolution_value
    ∧ (c.append t v).raw_datapoints =
        c.raw_datapoints ++
          (if acceptance_tester c.dtype ⟨t, v⟩ then [(⟨t, v⟩ : Datapoint)] else []) := by
  by_cases hacc : acceptance_tester c.dtype ⟨t, v⟩ = true
  · rw [append_accepted c t v hacc, hacc]
    exact ⟨rfl, rfl, rfl, rfl⟩
  · have hacc' : acceptance_tester c.dtype ⟨t, v⟩ = false := by
      revert hacc
      cases acceptance_tester c.dtype ⟨t, v⟩ <;> simp
    rw [append_rejected c t v hacc', hacc']
    exact ⟨rfl, rfl, rfl, by simp⟩

/-- Helper: re-appending a list of (timestamp, value) pairs keeps the type,
filters and resolution, and extends the raw list by exactly the accepted
pairs, in order. -/
theorem foldl_append_fields (pairs : List (Int × Int)) :
    ∀ c : DatasetContainer,
      (pairs.foldl (fun r p => r.append p.1 p.2) c).dtype = c.dtype
      ∧ (pairs.foldl (fun r p => r.append p.1 p.2) c).filters = c.filters
      ∧ (pairs.foldl (fun r p => r.append p.1 p.2) c).time_resolution_value =
          c.time_resolution_value
      ∧ (pairs.foldl (fun r p => r.append p.1 p.2) c).raw_datapoints =
          c.raw_datapoints ++
            ((pairs.filter (fun p => acceptance_tester c.dtype ⟨p.1, p.2⟩)).map
              (fun p => (⟨p.1, p.2⟩ : Datapoint))) := by
  induction pairs with
  | nil => exact fun c => ⟨rfl, rfl, rfl, by simp⟩
  | cons a l ih =>
    intro c
    obtain ⟨hd, hf, hr, hraw⟩ := ih (c.append a.1 a.2)
    obtain ⟨gd, gf, gr, graw⟩ := append_fields c a.1 a.2
    rw [List.foldl_cons]
    refine ⟨by rw [hd, gd], by rw [hf, gf], by rw [hr, gr], ?_⟩
    rw [hraw, graw, gd, List.filter_cons]
    by_cases hacc : acceptance_tester c.dtype ⟨a.1, a.2⟩ = true
    · rw [hacc, if_pos rfl]
      simp
    · have hacc' : acceptance_tester c.dtype ⟨a.1, a.2⟩ = false := by
        revert hacc
        cases acceptance_tester c.dtype ⟨a.1, a.2⟩ <;> simp
      rw [hacc']
      simp

/-- Helper: the fresh container that `_timeslice_data` starts from satisfies
the cache invariant. -/
theorem cache_inv_slice_base (c : DatasetContainer) :
    CacheInv { DatasetContainer.init c.dtype 60 with
        time_resolution_value := c.time_resolution_value } :=
  fun _ => rfl

/-- Helper: re-appending preserves the cache invariant. -/
theorem foldl_append_cache_inv (pairs : List (Int × Int)) :
    ∀ c : DatasetContainer, CacheInv c →
      CacheInv (pairs.foldl (fun r p => r.append p.1 p.2) c) := by
  induction pairs with
  | nil => exact fun c hc => hc
  | cons a l ih =>
    intro c hc
    exact ih (c.append a.1 a.2) (cache_inv_apply_op c (.op_append a.1 a.2) hc)

/-- Helper: under the cache invariant the served arrays are the filter chain
applied to the raw data. -/
theorem read_data_eq_compute (c : DatasetContainer) (h : CacheInv c) :
    c.read_data = c.compute_filtered := by
  unfold DatasetContainer.read_data
  cases hd : c.data_up_to_date
  · rw [if_neg (show ¬(false = true) from Bool.false_ne_true)]
  · rw [if_pos (rfl : (true : Bool) = true)]
    exact h hd

/-- Helper: with the parent's resolution at or above the floor, the checked
setter succeeds and `_timeslice_data` returns the re-appended container. -/
theorem timeslice_eq (c : DatasetContainer) (a b : Int)
    (h : 60 ≤ c.time_resolution_value) :
    c.timeslice_data a b = .ok (slice_result c a b) := by
  unfold DatasetContainer.timeslice_data
  have hset : (DatasetContainer.init c.dtype 60).time_resolution
      (some c.time_resolution_value) =
      .ok ({ DatasetContainer.init c.dtype 60 with
              time_resolution_value := c.time_resolution_value },
           c.time_resolution_value) := by
    simp [DatasetContainer.time_resolution, show ¬(c.time_resolution_value < 60) by omega]
  rw [hset]
  rfl

/-- Helper: the container a time slice returns has the parent's type, filters
and resolution, holds exactly the accepted masked samples, and serves exactly
those samples on read (its own filter chain is empty). -/
theorem slice_result_spec (c : DatasetContainer) (a b : Int) :
    (slice_result c a b).dtype = c.dtype
    ∧ (slice_result c a b).filters = DatasetFilter.init
    ∧ (slice_result c a b).time_resolution_value = c.time_resolution_value
    ∧ (slice_result c a b).raw_datapoints =
        (slice_sel c a b).map (fun p => (⟨p.1, p.2⟩ : Datapoint))
    ∧ (slice_result c a b).read_data =
        ((slice_sel c a b).map (·.1), (slice_sel c a b).map (·.2)) := by
  obtain ⟨hd, hf, hr, hraw⟩ := foldl_append_fields
    ((c.read_data.1.zip c.read_data.2).filter
      (fun p => decide (a ≤ p.1) && decide (p.1 < b)))
    { DatasetContainer.init c.dtype 60 with
        time_resolution_value := c.time_resolution_value }
  have hsel : (slice_result c a b).raw_datapoints =
      (slice_sel c a b).map (fun p => (⟨p.1, p.2⟩ : Datapoint)) := by
    rw [show (slice_result c a b).raw_datapoints = _ from hraw]
    rfl
  refine ⟨hd, hf, hr, hsel, ?_⟩
  have hinv : CacheInv (slice_result c a b) :=
    foldl_append_cache_inv _ _ (cache_inv_slice_base c)
  rw [read_data_eq_compute _ hinv]
  unfold DatasetContainer.compute_filtered
  rw [show (slice_result c a b).filters = DatasetFilter.init from hf,
    call_nil DatasetFilter.init rfl, hsel]
  simp [List.map_map]

/-- Helper: the window count decreases by exactly one when the loop variable
advances by one resolution step. -/
theorem steps_needed_succ (cur tend res : Int) (h1 : cur ≤ tend) (h2 : 0 < res) :
    steps_needed cur tend res = steps_needed (cur + res) tend res + 1 := by
  unfold steps_needed
  rw [if_pos h1]
  by_cases h3 : cur + res ≤ tend
  · rw [if_pos h3]
    have hr : 0 < res.toNat := by omega
    have hn : (tend - cur).toNat = (tend - (cur + res)).toNat + res.toNat := by omega
    rw [hn, Nat.add_div_right _ hr]
  · rw [if_neg h3]
    have hlt : (tend - cur).toNat < res.toNat := by omega
    rw [Nat.div_eq_of_lt hlt]

/-- Helper: on a non-empty series the earliest timestamp is at most the
latest. -/
theorem start_le_end (c : DatasetContainer) (hne : c.read_data.1 ≠ []) :
    c.timestamp_start ≤ c.timestamp_end := by
  unfold DatasetContainer.timestamp_start DatasetContainer.timestamp_end
  cases hmin : c.read_data.1.min? with
  | none =>
    exact absurd (List.min?_eq_none_iff.mp hmin) hne
  | some m =>
    cases hmax : c.read_data.1.max? with
    | none =>
      exact absurd (List.max?_eq_none_iff.mp hmax) hne
    | some M =>
      have hmem : m ∈ c.read_data.1 :=
        List.min?_mem (fun a b => min_choice a b) hmin
      have hall : ∀ b ∈ c.read_data.1, b ≤ M :=
        (List.max?_le_iff (fun a b c => max_le_iff) hmax).mp le_rfl
      simpa using hall m hmem

/-- Helper: closed form of the downsample while loop.  With positive
resolution, a parent resolution at or above the floor (so every slice
succeeds) and enough fuel, the loop records one window start per iteration
and the reduction of each window's sliced values. -/
theorem downsample_loop_eq {α : Type} (c : DatasetContainer) (func : List Int → α)
    (tend res : Int) (hres : 0 < res) (h60 : 60 ≤ c.time_resolution_value) :
    ∀ (fuel : Nat) (cur : Int), steps_needed cur tend res ≤ fuel →
      downsample_loop c func cur tend res fuel =
        .ok ((List.range (steps_needed cur tend res)).map
              (fun i : Nat => cur + (i : Int) * res),
             (List.range (steps_needed cur tend res)).map
               (fun i : Nat => func (slice_values c (cur + (i : Int) * res)
                 (cur + (i : Int) * res + res)))) := by
  intro fuel
  induction fuel with
  | zero =>
    intro cur hle
    have h0 : steps_needed cur tend res = 0 := Nat.le_zero.mp hle
    rw [h0]
    unfold downsample_loop
    rfl
  | succ fuel ih =>
    intro cur hle
    by_cases hcur : cur ≤ tend
    · have hstep := steps_needed_succ cur tend res hcur hres
      have hrec := ih (cur + res) (by omega)
      unfold downsample_loop
      rw [if_pos hcur, timeslice_eq c cur (cur + res) h60, hrec, hstep]
      have hval : (slice_result c cur (cur + res)).read_data.2 =
          slice_values c cur (cur + res) := by
        rw [(slice_result_spec c cur (cur + res)).2.2.2.2]
        rfl
      rw [List.range_succ_eq_map, List.map_cons, List.map_cons,
        List.map_map, List.map_map]
      show Except.ok _ = Except.ok _
      rw [hval]
      refine congrArg Except.ok (Prod.ext ?_ ?_)
      · show cur :: _ = (cur + ((0 : Nat) : Int) * res) :: _
        rw [show cur + ((0 : Nat) : Int) * res = cur by push_cast; ring]
        refine congrArg (cur :: ·) (List.map_congr_left fun i _ => ?_)
        show (cur + res) + (i : Int) * res = cur + ((Nat.succ i : Nat) : Int) * res
        push_cast
        ring
      · show func (slice_values c cur (cur + res)) :: _ =
          func (slice_values c (cur + ((0 : Nat) : Int) * res)
            (cur + ((0 : Nat) : Int) * res + res)) :: _
        rw [show cur + ((0 : Nat) : Int) * res = cur by push_cast; ring]
        refine congrArg (func (slice_values c cur (cur + res)) :: ·)
          (List.map_congr_left fun i _ => ?_)
        have harg : (cur + res) + (i : Int) * res =
            cur + ((Nat.succ i : Nat) : Int) * res := by
          push_cast
          ring
        show func (slice_values c ((cur + res) + (i : Int) * res)
            ((cur + res) + (i : Int) * res + res)) =
          func (slice_values c (cur + ((Nat.succ i : Nat) : Int) * res)
            (cur + ((Nat.succ i : Nat) : Int) * res + res))
        rw [harg]
    · have h0 : steps_needed cur tend res = 0 := by
        unfold steps_needed
        rw [if_neg hcur]
      rw [h0]
      unfold downsample_loop
      rw [if_neg hcur]
      rfl

/-- Helper: window-start bounds.  Every recorded window start is at most the
end timestamp (the loop's inclusive test) and the first skipped start would
exceed it. -/
theorem steps_needed_bounds (tstart tend res : Int) (h1 : tstart ≤ tend)
    (hres : 0 < res) :
    1 ≤ steps_needed tstart tend res
    ∧ (∀ i : Nat, i < steps_needed tstart tend res →
        tstart + (i : Int) * res ≤ tend)
    ∧ tend < tstart + ((steps_needed tstart tend res : Nat) : Int) * res := by
  unfold steps_needed
  rw [if_pos h1]
  have hr0 : 0 < res.toNat := by omega
  have hcast : ((res.toNat : Nat) : Int) = res := Int.toNat_of_nonneg (by omega)
  have hDcast : (((tend - tstart).toNat : Nat) : Int) = tend - tstart :=
    Int.toNat_of_nonneg (by omega)
  refine ⟨Nat.le_add_left 1 _, fun i hi => ?_, ?_⟩
  · have h2 : i ≤ (tend - tstart).toNat / res.toNat := by omega
    have h3 : i * res.toNat ≤ (tend - tstart).toNat :=
      (Nat.le_div_iff_mul_le hr0).mp h2
    have e1 : (i : Int) * res = ((i * res.toNat : Nat) : Int) := by
      push_cast [hcast]
      ring
    have e2 : ((i * res.toNat : Nat) : Int) ≤ (((tend - tstart).toNat : Nat) : Int) := by
      exact_mod_cast h3
    linarith [e1, e2, hDcast]
  · have hdm := Nat.div_add_mod (tend - tstart).toNat res.toNat
    have hmod := Nat.mod_lt (tend - tstart).toNat hr0
    have h4 : (tend - tstart).toNat <
        ((tend - tstart).toNat / res.toNat + 1) * res.toNat := by
      calc (tend - tstart).toNat
          = res.toNat * ((tend - tstart).toNat / res.toNat) +
              (tend - tstart).toNat % res.toNat := hdm.symm
        _ < res.toNat * ((tend - tstart).toNat / res.toNat) + res.toNat := by omega
        _ = ((tend - tstart).toNat / res.toNat + 1) * res.toNat := by ring
    have e1 : (((tend - tstart).toNat / res.toNat + 1 : Nat) : Int) * res =
        ((((tend - tstart).toNat / res.toNat + 1) * res.toNat : Nat) : Int) := by
      push_cast [hcast]
      ring
    have e2 : (((tend - tstart).toNat : Nat) : Int) <
        ((((tend - tstart).toNat / res.toNat + 1) * res.toNat : Nat) : Int) := by
      exact_mod_cast h4
    linarith [e1, e2, hDcast]

/-- Helper: `_downsample_data` in closed form (its fuel is exactly the loop's
iteration count). -/
theorem downsample_data_eq {α : Type} (c : DatasetContainer) (func : List Int → α)
    (h60 : 60 ≤ c.time_resolution_value) :
    c.downsample_data func =
      .ok ((List.range (steps_needed c.timestamp_start c.timestamp_end
              c.time_resolution_value)).map
            (fun i : Nat => c.timestamp_start + (i : Int) * c.time_resolution_value),
           (List.range (steps_needed c.timestamp_start c.timestamp_end
              c.time_resolution_value)).map
             (fun i : Nat =>
               func (slice_values c
                 (c.timestamp_start + (i : Int) * c.time_resolution_value)
                 (c.timestamp_start + (i : Int) * c.time_resolution_value +
                   c.time_resolution_value)))) := by
  unfold DatasetContainer.downsample_data
  exact downsample_loop_eq c func c.timestamp_end c.time_resolution_value
    (by omega) h60 _ c.timestamp_start le_rfl

/-- C4: downsampling iterates half-open windows `[cur, cur + resolution)`
from `timestamp_start()`, advancing by the resolution while
`cur <= timestamp_end()`, recording `(cur, reduce_fn(window values))` per
window; and on the spec's scenario (values 1..11 at one-minute steps from
12:00:00, resolution 5 min) the sums are [15, 40, 11] and the means and
medians are both [3, 8, 11] at window starts [12:00, 12:05, 12:10]. -/
theorem claim_C4_downsample :
    (∀ (α : Type) (c : DatasetContainer) (func : List Int → α),
      60 ≤ c.time_resolution_value → c.read_data.1 ≠ [] →
      c.downsample_data func =
          .ok ((List.range (steps_needed c.timestamp_start c.timestamp_end
                  c.time_resolution_value)).map
                (fun i : Nat => c.timestamp_start + (i : Int) * c.time_resolution_value),
               (List.range (steps_needed c.timestamp_start c.timestamp_end
                  c.time_resolution_value)).map
                 (fun i : Nat =>
                   func (slice_values c
                     (c.timestamp_start + (i : Int) * c.time_resolution_value)
                     (c.timestamp_start + (i : Int) * c.time_resolution_value +
                       c.time_resolution_value))))
        ∧ 1 ≤ steps_needed c.timestamp_start c.timestamp_end c.time_resolution_value
        ∧ (∀ i : Nat, i < steps_needed c.timestamp_start c.timestamp_end
              c.time_resolution_value →
            c.timestamp_start + (i : Int) * c.time_resolution_value ≤ c.timestamp_end)
        ∧ c.timestamp_end < c.timestamp_start +
            ((steps_needed c.timestamp_start c.timestamp_end
              c.time_resolution_value : Nat) : Int) * c.time_resolution_value)
    ∧ c4_scenario.downsample_sum = .ok ([43200, 43500, 43800], [15, 40, 11])
    ∧ c4_scenario.downsample_mean = .ok ([43200, 43500, 43800], [3, 8, 11])
    ∧ c4_scenario.downsample_median = .ok ([43200, 43500, 43800], [3, 8, 11]) := by
  refine ⟨fun α c func h60 hne => ?_, by decide, by decide, by decide⟩
  obtain ⟨b1, b2, b3⟩ := steps_needed_bounds c.timestamp_start c.timestamp_end
    c.time_resolution_value (start_le_end c hne) (by omega)
  exact ⟨downsample_data_eq c func h60, b1, b2, b3⟩

/-- C4 witness: the general window characterization applied to the concrete
scenario container with the sum reduction. -/
theorem claim_C4_downsample_witness :
    60 ≤ c4_scenario.time_resolution_value
    ∧ c4_scenario.read_data.1 ≠ []
    ∧ c4_scenario.downsample_data np_sum =
        .ok ((List.range (steps_needed c4_scenario.timestamp_start
                c4_scenario.timestamp_end c4_scenario.time_resolution_value)).map
              (fun i : Nat => c4_scenario.timestamp_start +
                (i : Int) * c4_scenario.time_resolution_value),
             (List.range (steps_needed c4_scenario.timestamp_start
                c4_scenario.timestamp_end c4_scenario.time_resolution_value)).map
               (fun i : Nat =>
                 np_sum (slice_values c4_scenario
                   (c4_scenario.timestamp_start +
                     (i : Int) * c4_scenario.time_resolution_value)
                   (c4_scenario.timestamp_start +
                     (i : Int) * c4_scenario.time_resolution_value +
                     c4_scenario.time_resolution_value)))) :=
  ⟨by decide, by decide,
   (claim_C4_downsample.1 Int c4_scenario np_sum (by decide) (by decide)).1⟩

/-- C5 counterexample: in a heartrate container holding values [1, 1, 1] with
the heartrate correction filter added, the filtered arrays are
([0, 60, 120], [1, 0, 1]) and all three samples lie inside the slice window
[0, 1000); yet the slice's contents are [1, 1], not [1, 0, 1] — the re-append
path rejects the filter-produced 0, so the slice does NOT contain exactly the
in-range filtered samples. -/
theorem claim_C5_timeslice_counterexample :
    c5_bad.read_data = ([0, 60, 120], [1, 0, 1])
    ∧ ((c5_bad.read_data.1.zip c5_bad.read_data.2).filter
        (fun p => decide ((0 : Int) ≤ p.1) && decide (p.1 < 1000))).map (·.2) =
        [1, 0, 1]
    ∧ (c5_bad.timeslice_data 0 1000).map (fun r => r.read_data.2) = .ok [1, 1]
    ∧ ([1, 1] : List Int) ≠ [1, 0, 1] := by
  refine ⟨by decide, by decide, by decide, by decide⟩

/-- C5 (amended): provided the parent's resolution is at least the 1-minute
floor (the copy passes through the checked setter), `_timeslice_data` returns
a new container of the same dataset type and resolution, built by
re-appending through the acceptance gate; its contents are exactly those
filtered samples with `start <= t < end` that also pass the dataset type's
acceptance test.  A sample at `t = start` is subject only to `start < end`
membership of its window edge; a sample at `t = end` is always excluded. -/
theorem claim_C5_timeslice_amended (c : DatasetContainer) (a b : Int)
    (h : 60 ≤ c.time_resolution_value) :
    (c.timeslice_data a b).map (·.dtype) = .ok c.dtype
    ∧ (c.timeslice_data a b).map (·.time_resolution_value) =
        .ok c.time_resolution_value
    ∧ (c.timeslice_data a b).map (·.raw_datapoints) =
        .ok ((slice_sel c a b).map (fun p => (⟨p.1, p.2⟩ : Datapoint)))
    ∧ (c.timeslice_data a b).map (·.read_data) =
        .ok ((slice_sel c a b).map (·.1), (slice_sel c a b).map (·.2))
    ∧ (∀ t : Int, (decide (a ≤ t) && decide (t < b)) = true ↔ (a ≤ t ∧ t < b))
    ∧ ((decide (a ≤ a) && decide (a < b)) = decide (a < b))
    ∧ ((decide (a ≤ b) && decide (b < b)) = false) := by
  obtain ⟨hd, hf, hr, hraw, hread⟩ := slice_result_spec c a b
  rw [timeslice_eq c a b h]
  refine ⟨by rw [Except.map, hd], by rw [Except.map, hr], by rw [Except.map, hraw],
    by rw [Except.map, hread], fun t => by simp, by simp, by simp⟩

/-- C5 witness: the amended characterization applied to the concrete
heartrate container: the slice over [0, 1000) keeps the two samples that pass
acceptance and drops the filter-produced 0. -/
theorem claim_C5_timeslice_amended_witness :
    60 ≤ c5_bad.time_resolution_value
    ∧ (c5_bad.timeslice_data 0 1000).map (·.read_data) = .ok ([0, 120], [1, 1]) :=
  ⟨by decide,
   ((claim_C5_timeslice_amended c5_bad 0 1000 (by decide)).2.2.2.1).trans (by decide)⟩

/-- Helper: bounds for the `arange` bin edges: with positive step, every edge
index yields an edge strictly below `hi`, and the first index past the end
would reach `hi` or beyond. -/
theorem arange_len_bounds (lo hi step : Int) (hs : 0 < step) :
    (∀ i : Nat, i < arange_len lo hi step → lo + (i : Int) * step < hi)
    ∧ hi ≤ lo + ((arange_len lo hi step : Nat) : Int) * step := by
  unfold arange_len
  have hconv : Int.ediv (hi - lo + step - 1) step = (hi - lo + step - 1) / step := rfl
  rw [hconv]
  by_cases hle : hi - lo ≤ 0
  · have hnum : hi - lo + step - 1 < 1 * step := by omega
    have hediv : (hi - lo + step - 1) / step < 1 :=
      (Int.ediv_lt_iff_lt_mul hs).mpr hnum
    have h0 : ((hi - lo + step - 1) / step).toNat = 0 := by omega
    rw [h0]
    refine ⟨fun i hi' => absurd hi' (by omega), ?_⟩
    simp
    omega
  · have hd : 0 < hi - lo := by omega
    have hsplit : hi - lo + step - 1 = (hi - lo - 1) + 1 * step := by ring
    have hq : (hi - lo + step - 1) / step = (hi - lo - 1) / step + 1 := by
      rw [hsplit, Int.add_mul_ediv_right _ _ (by omega : step ≠ 0)]
    have hq0 : 0 ≤ (hi - lo - 1) / step := Int.ediv_nonneg (by omega) (by omega)
    have htoNat : (((hi - lo + step - 1) / step).toNat : Int) =
        (hi - lo - 1) / step + 1 := by
      rw [hq]
      omega
    constructor
    · intro i hilt
      have hi2 : (i : Int) < ((hi - lo + step - 1) / step).toNat := by
        exact_mod_cast hilt
      have hi3 : (i : Int) ≤ (hi - lo - 1) / step := by omega
      have hi4 : (i : Int) * step ≤ hi - lo - 1 :=
        (Int.le_ediv_iff_mul_le hs).mp hi3
      omega
    · have hlt : hi - lo - 1 < ((hi - lo - 1) / step + 1) * step :=
        Int.lt_ediv_add_one_mul_self (hi - lo - 1) hs
      rw [htoNat]
      omega

/-- C6 counterexample: the unset-bound derivation is NOT rounded toward zero.
An intensity container accepts -15; its filtered minimum is -15, the code's
python-2 floor division gives int(-15/10)*10 = -20, while rounding toward
zero (truncating division) would give -10 — and the two derivations produce
different histograms (different bin edge lists), so the claim's derivation
rule is false of the program at this reachable input. -/
theorem claim_C6_histogram_counterexample :
    (c6_neg.read_data.2.min?).getD 0 = -15
    ∧ Int.fdiv (-15) 10 * 10 = -20
    ∧ Int.tdiv (-15) 10 * 10 = -10
    ∧ c6_neg.downsample_histogram none none 5 =
        c6_neg.downsample_histogram (some (-20)) (some 0) 5
    ∧ c6_neg.downsample_histogram none none 5 ≠
        c6_neg.downsample_histogram (some (-10)) (some 0) 5 :=
  ⟨by decide, by decide, by decide, by decide, by decide⟩

/-- C6 (amended): `downsample_histogram` derives unset bounds from the
filtered values' min/max rounded down — python-2 floor division of the
integer array by 10, which agrees with truncation toward zero only for
nonnegative values; the bin edges start at `hist_min` and step by the
resolution while strictly below `hist_max` (the next edge would reach or
pass it); the loop emits one row per window and one extra trailing
`timestamp_end()` is appended, so the timestamp axis is exactly one element
longer than the row axis and ends at `timestamp_end()`. -/
theorem claim_C6_downsample_histogram :
    (∀ (c : DatasetContainer) (resolution : Int), c.read_data.2 ≠ [] →
      c.downsample_histogram none none resolution =
        c.downsample_histogram
          (some (Int.fdiv ((c.read_data.2.min?).getD 0) 10 * 10))
          (some (Int.fdiv ((c.read_data.2.max?).getD 0) 10 * 10)) resolution)
    ∧ (∀ lo hi step : Int, 0 < step →
      (bin_edges lo hi step).length = arange_len lo hi step
      ∧ (∀ i : Nat, i < arange_len lo hi step →
          (bin_edges lo hi step)[i]? = some (lo + (i : Int) * step)
          ∧ lo + (i : Int) * step < hi)
      ∧ hi ≤ lo + ((arange_len lo hi step : Nat) : Int) * step)
    ∧ (∀ (c : DatasetContainer) (hmin hmax resolution : Int),
      60 ≤ c.time_resolution_value → c.read_data.1 ≠ [] →
      c.downsample_histogram (some hmin) (some hmax) resolution =
          .ok (((List.range (steps_needed c.timestamp_start c.timestamp_end
                  c.time_resolution_value)).map
                (fun i : Nat => c.timestamp_start + (i : Int) * c.time_resolution_value))
              ++ [c.timestamp_end],
               bin_edges hmin hmax resolution,
               (List.range (steps_needed c.timestamp_start c.timestamp_end
                  c.time_resolution_value)).map
                 (fun i : Nat => hist_row (bin_edges hmin hmax resolution)
                   (slice_values c
                     (c.timestamp_start + (i : Int) * c.time_resolution_value)
                     (c.timestamp_start + (i : Int) * c.time_resolution_value +
                       c.time_resolution_value))))
        ∧ (((List.range (steps_needed c.timestamp_start c.timestamp_end
                c.time_resolution_value)).map
              (fun i : Nat => c.timestamp_start + (i : Int) * c.time_resolution_value))
            ++ [c.timestamp_end]).length =
            ((List.range (steps_needed c.timestamp_start c.timestamp_end
                c.time_resolution_value)).map
              (fun i : Nat => hist_row (bin_edges hmin hmax resolution)
                (slice_values c
                  (c.timestamp_start + (i : Int) * c.time_resolution_value)
                  (c.timestamp_start + (i : Int) * c.time_resolution_value +
                    c.time_resolution_value)))).length + 1
        ∧ ((((List.range (steps_needed c.timestamp_start c.timestamp_end
                c.time_resolution_value)).map
              (fun i : Nat => c.timestamp_start + (i : Int) * c.time_resolution_value))
            ++ [c.timestamp_end]).getLast? = some c.timestamp_end)) := by
  refine ⟨fun c resolution _ => rfl, fun lo hi step hs => ?_, fun c hmin hmax resolution h60 _ => ?_⟩
  · obtain ⟨hb1, hb2⟩ := arange_len_bounds lo hi step hs
    refine ⟨?_, fun i hilt => ⟨?_, (hb1 i hilt)⟩, hb2⟩
    · unfold bin_edges
      rw [if_pos hs]
      simp
    · unfold bin_edges
      rw [if_pos hs]
      rw [List.getElem?_map]
      rw [List.getElem?_range hilt]
      rfl
  · refine ⟨?_, by simp, by rw [List.getLast?_concat]⟩
    unfold DatasetContainer.downsample_histogram
    dsimp only
    rw [downsample_loop_eq c
      (fun vs => hist_row (bin_edges hmin hmax resolution) vs)
      c.timestamp_end c.time_resolution_value (by omega) h60 _
      c.timestamp_start le_rfl]

/-- C6 witness: the histogram characterization applied to the concrete
scenario with explicit bounds 1 and 12 and bin width 1 reproduces the
repository's own expected output (four timestamps, one more than the three
rows, the last two both 12:10; edges 1..11; peak-normalized rows); and the
unset-bound derivation applied to the negative-minimum intensity container
floors -15 down to -20. -/
theorem claim_C6_downsample_histogram_witness :
    60 ≤ c4_scenario.time_resolution_value
    ∧ (0 : Int) < 1
    ∧ c4_scenario.read_data.1 ≠ []
    ∧ c4_scenario.downsample_histogram (some 1) (some 12) 1 =
        .ok ([43200, 43500, 43800, 43800], [1, 2, 3, 4, 5, 6, 7, 8, 9, 10, 11],
             [[1, 1, 1, 1, 1, 0, 0, 0, 0, 0],
              [0, 0, 0, 0, 0, 1, 1, 1, 1, 1],
              [0, 0, 0, 0, 0, 0, 0, 0, 0, 1]])
    ∧ c6_neg.read_data.2 ≠ []
    ∧ c6_neg.downsample_histogram none none 5 =
        c6_neg.downsample_histogram (some (-20)) (some 0) 5 :=
  ⟨by decide, by decide, by decide,
   ((claim_C6_downsample_histogram.2.2 c4_scenario 1 12 1 (by decide) (by decide)).1).trans
     (by decide),
   by decide,
   (claim_C6_downsample_histogram.1 c6_neg 5 (by decide)).trans (by decide)⟩
